import Mathlib

/-!
Verification of the mushroom-classification application.

The frontend React/JS sources (`frontend/src/utils/helpers.js`,
`frontend/src/components/*.jsx`, `frontend/src/pages/*.jsx`) are embedded
shallowly: each JS function that the properties mention becomes a Lean
function over explicit data types.  JS `File` objects are records of the
fields the code reads, nullable values become `Option`, JS numbers that the
code treats exactly (sizes, confidences, the alpha opacity) become `Nat` or
`ℚ`.  The backend ensemble engine is not part of the checked sources, so its
operations (`fuse`, the request driver, `prepare`) are modelled from the
design document, as marked on each such definition.
-/

/-- A JavaScript value that is either a string or a boolean: the two shapes
of argument that reach `getToxicityColor` in the sources (`'P'`/`'E'` codes
from the sidebar, the boolean `is_poisonous` from `PredictionResults`). -/
inductive JSVal
  | str (s : String)
  | jsBool (b : Bool)
  deriving DecidableEq

/-- From `frontend/src/utils/helpers.js`:
`getToxicityColor = (toxicityCode) => toxicityCode === 'P' ? 'text-red-600' : 'text-green-600'`.
JS strict equality `===` is equality on `JSVal`; a boolean is never
strictly equal to the string `'P'`. -/
def getToxicityColor (toxicityCode : JSVal) : String :=
  if toxicityCode = .str "P" then "text-red-600" else "text-green-600"

/-- From `frontend/src/components/PredictionResults.jsx`: the card border is
styled with `getToxicityColor(isPoisonous)` where
`isPoisonous = best_prediction.toxicity.is_poisonous` is a boolean. -/
def predictionCardBorderColor (is_poisonous : Bool) : String :=
  getToxicityColor (.jsBool is_poisonous)

/-- From `frontend/src/components/PredictionResults.jsx`: the toxicity
warning box color is likewise `getToxicityColor(isPoisonous)` with the
boolean `is_poisonous`. -/
def toxicityWarningColor (is_poisonous : Bool) : String :=
  getToxicityColor (.jsBool is_poisonous)

/-- A JS `File` restricted to the fields `validateImage` reads. -/
structure JSFile where
  type : String
  size : Nat
  deriving DecidableEq

/-- The allowed MIME types of `validateImage` in `helpers.js`. -/
def allowedTypes : List String :=
  ["image/jpeg", "image/jpg", "image/png", "image/webp"]

/-- The `maxSize` constant of `validateImage` in `helpers.js` (10 MB). -/
def maxSize : Nat := 10 * 1024 * 1024

/-- The result object of `validateImage`: `{valid: true}` carries no error
field (`error = none`), `{valid: false, error: msg}` carries one. -/
structure ValidationResult where
  valid : Bool
  error : Option String
  deriving DecidableEq

/-- From `frontend/src/utils/helpers.js`, `validateImage(file)`: a missing
file, then a disallowed MIME type, then a size strictly above 10 MB are
rejected, in that order; otherwise the file is valid. -/
def validateImage (file : Option JSFile) : ValidationResult :=
  match file with
  | none => ⟨false, some "Vui lòng chọn file"⟩
  | some f =>
    if f.type ∈ allowedTypes then
      if f.size > maxSize then ⟨false, some "File không được vượt quá 10MB"⟩
      else ⟨true, none⟩
    else ⟨false, some "Chỉ chấp nhận file ảnh (JPG, PNG, WEBP)"⟩

/-- From `frontend/src/utils/helpers.js`, `truncate(text, maxLength)`:
return `text` unchanged when it fits, otherwise its first `maxLength`
characters followed by `'...'`.  Strings are embedded as `List Char`. -/
def truncate (text : List Char) (maxLength : Nat) : List Char :=
  if text.length ≤ maxLength then text
  else text.take maxLength ++ ['.', '.', '.']

/-- From `frontend/src/components/ImageUpload.jsx`, `handleFiles(files)` of
the `ImageUploader` component: if the dropped selection together with the
already selected files would exceed `maxFiles`, the whole drop is rejected
and the selection is unchanged; otherwise every file of the drop that passes
`validateImage` is appended (invalid ones are skipped with a toast).  The
returned list is the resulting selection (`onFileSelect`'s first argument;
when no file was valid the callback is skipped and the selection is likewise
unchanged, which appending the empty filtered list also expresses). -/
def uploaderHandleFiles (maxFiles : Nat) (selectedFiles dropped : List JSFile) :
    List JSFile :=
  if dropped.length + selectedFiles.length > maxFiles then selectedFiles
  else selectedFiles ++ dropped.filter (fun f => (validateImage (some f)).valid)

/-- From `frontend/src/components/ImageUpload.jsx`, `handleCameraCapture`:
the captured file is validated first; then if adding one more file would
exceed `maxFiles` the capture is rejected; otherwise it is appended. -/
def uploaderHandleCameraCapture (maxFiles : Nat) (selectedFiles : List JSFile)
    (file : JSFile) : List JSFile :=
  if (validateImage (some file)).valid = false then selectedFiles
  else if selectedFiles.length + 1 > maxFiles then selectedFiles
  else selectedFiles ++ [file]

/-- From `frontend/src/components/ImageUpload.jsx`, `handleRemove(index)`:
the selection is filtered to the entries whose index differs from `index`,
which is exactly `List.eraseIdx`. -/
def uploaderHandleRemove (selectedFiles : List JSFile) (index : Nat) :
    List JSFile :=
  selectedFiles.eraseIdx index

/-- The action `handleBatchPredict` of `frontend/src/pages/BatchPage.jsx`
takes: either an error toast with no request, or a `predictBatch` call. -/
inductive BatchAction
  | showError (msg : String)
  | sendRequest (files : List JSFile) (topK : Nat)
  deriving DecidableEq

/-- From `frontend/src/pages/BatchPage.jsx`, `handleBatchPredict`: an empty
selection and a selection of more than 5 files are reported as errors and no
request is issued; otherwise `predictBatch(selectedFiles, 3)` is called. -/
def handleBatchPredict (selectedFiles : List JSFile) : BatchAction :=
  if selectedFiles.length = 0 then .showError "Vui lòng chọn ít nhất 1 ảnh"
  else if selectedFiles.length > 5 then .showError "Tối đa 5 ảnh mỗi lần"
  else .sendRequest selectedFiles 3

/-- Helper for `renderBatch`: walks the result list with an explicit index,
as the JS `results.map((result, index) => ...)` does. -/
def renderBatchFrom {α β γ : Type} (previews : List β) (files : List γ) :
    Nat → List α → List (α × Option β × Option γ)
  | _, [] => []
  | i, r :: rs => (r, previews.get? i, files.get? i) :: renderBatchFrom previews files (i + 1) rs

/-- From `frontend/src/pages/BatchPage.jsx`: the results section renders
`results.map((result, index) => ...)`, pairing the `index`-th result entry
with `previews[index]` and `selectedFiles[index]` (an out-of-range access is
`undefined`, i.e. `none`). -/
def renderBatch {α β γ : Type} (results : List α) (previews : List β)
    (files : List γ) : List (α × Option β × Option γ) :=
  renderBatchFrom previews files 0 results

/-- The alpha state of `frontend/src/pages/GradCAMPage.jsx`:
`useState(0.45)` initially, and after any slider interaction one of the
positions of the range input with `min="0" max="1" step="0.05"`, i.e.
`k * 0.05` for `0 ≤ k ≤ 20`. -/
inductive AlphaState
  | start
  | slider (k : Fin 21)
  deriving DecidableEq

/-- The numeric value of the alpha state (exact rational arithmetic; the
slider values and 0.45 are exactly representable in binary-independent ℚ). -/
def alphaValue : AlphaState → ℚ
  | .start => 45 / 100
  | .slider k => (k : ℚ) * 5 / 100

/-- From `frontend/src/pages/GradCAMPage.jsx`, `handleGenerateGradCAM`: the
request is `generateGradCAMAll(selectedFiles[0], alpha)` with the current
alpha state. -/
def gradcamRequestAlpha (s : AlphaState) : ℚ := alphaValue s

/-- From `frontend/src/components/PredictionResult.jsx`,
`handleGenerateGradCAM`: the request is `generateGradCAMAll(imageFile, 0.45)`
with the constant opacity 0.45. -/
def predictionResultRequestAlpha : ℚ := 45 / 100

/-- One per-model entry of a Grad-CAM response mapping, restricted to the
fields the renderers read.  `gradcam_base64 = none` stands for an absent or
falsy overlay field, and similarly for the other optional fields. -/
structure GradEntry where
  success : Bool
  gradcam_base64 : Option String
  predicted_class : Option String
  confidence : Option ℚ
  deriving DecidableEq

/-- A rendered Grad-CAM card: overlay image source, displayed prediction and
displayed confidence. -/
structure GradCard where
  modelName : String
  base64 : String
  predictedClass : String
  confidenceShown : ℚ
  deriving DecidableEq

/-- From `frontend/src/pages/GradCAMPage.jsx` lines 209-214 (and identically
`PredictionResult.jsx` lines 308-313): the map callback over
`Object.entries(gradcamResults)` returns `null` when
`!data || !data.success || !data.gradcam_base64`, otherwise it renders the
overlay with `data.predicted_class || 'N/A'` and `data.confidence` (0 when
null). -/
def renderGradEntry (modelName : String) (data : Option GradEntry) :
    Option GradCard :=
  match data with
  | none => none
  | some d =>
    if d.success then
      match d.gradcam_base64 with
      | none => none
      | some b64 =>
        some ⟨modelName, b64, d.predicted_class.getD "N/A", d.confidence.getD 0⟩
    else none

/-- The full Grad-CAM grid: the `null` returns of the map callback contribute
nothing to the rendered output, so the grid is the `filterMap`. -/
def renderGradResults (entries : List (String × Option GradEntry)) :
    List GradCard :=
  entries.filterMap (fun e => renderGradEntry e.1 e.2)

/-- One class-probability entry: class label and confidence in percent. -/
abbrev ClassProb := String × ℚ

/-- One backbone's prediction for fusion purposes: its full class-probability
list (design document §3, `ModelPrediction`). -/
abbrev ModelPred := List ClassProb

/-- Modelled from the spec (§4.4 Ensemble Fusion; the backend inference code
is not among the checked sources): the class labels present in any model's
output, each taken once. -/
def fusedLabels (preds : List ModelPred) : List String :=
  ((preds.map (fun p => p.map Prod.fst)).flatten).dedup

/-- Modelled from the spec (§4.4): the confidences reported for label `l`,
one per model that reported it (models without the label are excluded, not
zero-filled). -/
def classVals (l : String) (preds : List ModelPred) : List ℚ :=
  preds.filterMap (fun p => (p.find? (fun cp => cp.1 = l)).map Prod.snd)

/-- Modelled from the spec (§4.4): arithmetic mean of a label's confidences
across the models that reported it. -/
def meanConf (l : String) (preds : List ModelPred) : ℚ :=
  (classVals l preds).sum / ((classVals l preds).length : ℚ)

/-- The ranking order of §4.4: descending by mean confidence, ties broken by
lexical (ascending) order of the class label. -/
def rankRel (a b : ClassProb) : Prop :=
  b.2 < a.2 ∨ (a.2 = b.2 ∧ a.1 ≤ b.1)

instance : DecidableRel rankRel := fun _ _ =>
  inferInstanceAs (Decidable (_ ∨ _))

instance : IsTotal ClassProb rankRel where
  total a b := by
    rcases lt_trichotomy a.2 b.2 with h | h | h
    · exact Or.inr (Or.inl h)
    · rcases le_total a.1 b.1 with h1 | h1
      · exact Or.inl (Or.inr ⟨h, h1⟩)
      · exact Or.inr (Or.inr ⟨h.symm, h1⟩)
    · exact Or.inl (Or.inl h)

instance : IsTrans ClassProb rankRel where
  trans a b c hab hbc := by
    rcases hab with h1 | ⟨e1, l1⟩ <;> rcases hbc with h2 | ⟨e2, l2⟩
    · exact Or.inl (h2.trans h1)
    · exact Or.inl (lt_of_le_of_lt (le_of_eq e2.symm) h1)
    · exact Or.inl (lt_of_lt_of_le h2 (le_of_eq e1.symm))
    · exact Or.inr ⟨e1.trans e2, l1.trans l2⟩

/-- Modelled from the spec (§4.4 `fuse`): soft voting over the reported
labels, then sorting descending by mean confidence with lexical tie-break;
fails (`none`, standing for `NoValidPredictionsError` at this level) when
given no predictions. -/
def fuse (preds : List ModelPred) : Option (List ClassProb) :=
  if preds.isEmpty then none
  else some (((fusedLabels preds).map (fun l => (l, meanConf l preds))).insertionSort rankRel)

/-- Modelled from the spec (§4.4, §7): the result of a whole prediction
request — the per-backbone breakdown of the successful backbones and the
fused ranked list. -/
structure EnsembleResult where
  breakdown : List (String × ModelPred)
  ranked : List ClassProb
  deriving DecidableEq

/-- Modelled from the spec (§7 propagation policy; the backend driver is not
among the checked sources): each backbone's outcome is a tagged result
(`none` = that backbone failed or was unavailable); only successes are folded
into fusion, and when every backbone failed the request fails with
`NoValidPredictionsError`. -/
def successes (outcomes : List (String × Option ModelPred)) :
    List (String × ModelPred) :=
  outcomes.filterMap (fun o => o.2.map (fun p => (o.1, p)))

/-- Modelled from the spec (§7, continued): the request driver itself. -/
def runPredictRequest (outcomes : List (String × Option ModelPred)) :
    Except String EnsembleResult :=
  match fuse ((successes outcomes).map Prod.snd) with
  | none => .error "NoValidPredictionsError"
  | some ranked => .ok ⟨successes outcomes, ranked⟩

/-- Modelled from the spec (§4.2, §3 `PreprocessedImage`): a decoded raster
image — pixel data as flat channel bytes plus its dimensions. -/
structure RawImage where
  width : Nat
  height : Nat
  pixels : List Nat
  deriving DecidableEq

/-- Modelled from the spec (§4.2 `prepare`; the backend preprocessing code
is not among the checked sources): decoding fails unless the bytes start
with a recognized format tag (0 = JPEG, 1 = PNG, 2 = WEBP) followed by the
dimensions, and fails when the decoded image has zero area. -/
def decode (bytes : List Nat) : Option RawImage :=
  match bytes with
  | t :: w :: h :: rest =>
    if (t = 0 ∨ t = 1 ∨ t = 2) ∧ 0 < w * h then
      some ⟨w, h, rest.take (w * h * 3)⟩
    else none
  | _ => none

/-- The fixed square input edge of the backbones (224, the standard
ImageNet-style resolution the design document's preprocessing targets). -/
def inputEdge : Nat := 224

/-- Modelled from the spec (§4.2): deterministic direct resize of the decoded
image to the fixed square edge by nearest-neighbour sampling, producing a
flat interleaved channel list. -/
def resizeFlat (img : RawImage) : List Nat :=
  (List.range (inputEdge * inputEdge * 3)).map (fun k =>
    let c := k % 3
    let idx := k / 3
    let ty := idx / inputEdge
    let tx := idx % inputEdge
    let sy := ty * img.height / inputEdge
    let sx := tx * img.width / inputEdge
    img.pixels.getD ((sy * img.width + sx) * 3 + c) 0)

/-- The per-channel normalization means recorded at training time. -/
def channelMeans : List ℚ := [485 / 1000, 456 / 1000, 406 / 1000]

/-- The per-channel normalization standard deviations recorded at training
time. -/
def channelStds : List ℚ := [229 / 1000, 224 / 1000, 225 / 1000]

/-- Modelled from the spec (§4.2): per-channel normalization of the flat
resized pixel list using the fixed training-time constants. -/
def normalizeFlat (flat : List Nat) : List ℚ :=
  (List.range flat.length).map (fun i =>
    ((flat.getD i 0 : ℚ) / 255 - channelMeans.getD (i % 3) 0) / channelStds.getD (i % 3) 1)

/-- Modelled from the spec (§4.2 `prepare` and §3 `PreprocessedImage`): the
output tensor plus the original image dimensions, or `none`
(`InvalidImageError`) when decoding fails. -/
def prepareTensor (bytes : List Nat) : Option (List ℚ × Nat × Nat) :=
  (decode bytes).map (fun img => (normalizeFlat (resizeFlat img), img.width, img.height))

/-- Modelled from the spec (§4.3 side effects): the request-scoped context a
call runs in — here the count of transient scratch allocations made so far.
`prepare` is pure, so the context only records the allocation. -/
structure RequestCtx where
  scratchCount : Nat
  deriving DecidableEq

/-- Modelled from the spec (§4.2): one call of `prepare(rawImageBytes)`
inside a request context.  The call allocates transient scratch space
(advancing the context) but its tensor output is a function of the bytes
alone. -/
def prepareCall (bytes : List Nat) (ctx : RequestCtx) :
    Option (List ℚ × Nat × Nat) × RequestCtx :=
  (prepareTensor bytes, ⟨ctx.scratchCount + 1⟩)

/-- C2: `validateImage(f)` accepts exactly the non-null files with an allowed
MIME type and size at most 10*1024*1024 bytes (10 MB sharp is accepted);
every rejection carries a non-empty error message; a missing file is
reported before the type check and a bad type before the size check. -/
theorem validateImage_spec (f : Option JSFile) :
    ((validateImage f).valid = true ↔
      ∃ fl, f = some fl ∧ fl.type ∈ allowedTypes ∧ fl.size ≤ 10 * 1024 * 1024)
    ∧ ((validateImage f).valid = false →
      ∃ msg, (validateImage f).error = some msg ∧ msg ≠ "")
    ∧ (validateImage none = ⟨false, some "Vui lòng chọn file"⟩)
    ∧ (∀ fl, f = some fl → fl.type ∉ allowedTypes →
      validateImage f = ⟨false, some "Chỉ chấp nhận file ảnh (JPG, PNG, WEBP)"⟩)
    ∧ (∀ fl, f = some fl → fl.type ∈ allowedTypes → fl.size > maxSize →
      validateImage f = ⟨false, some "File không được vượt quá 10MB"⟩) := by
  refine ⟨?_, ?_, rfl, ?_, ?_⟩
  · cases f with
    | none => simp [validateImage]
    | some fl =>
      simp only [validateImage]
      constructor
      · intro h
        by_cases ht : fl.type ∈ allowedTypes
        · by_cases hs : fl.size > maxSize
          · rw [if_pos ht, if_pos hs] at h
            simp at h
          · exact ⟨fl, rfl, ht, by unfold maxSize at hs; omega⟩
        · rw [if_neg ht] at h
          simp at h
      · rintro ⟨fl', hfl, ht, hsz⟩
        obtain rfl : fl = fl' := by injection hfl
        rw [if_pos ht, if_neg (by unfold maxSize; omega)]
  · cases f with
    | none => exact fun _ => ⟨_, rfl, by simp⟩
    | some fl =>
      intro h
      simp only [validateImage] at h ⊢
      by_cases ht : fl.type ∈ allowedTypes
      · by_cases hs : fl.size > maxSize
        · rw [if_pos ht, if_pos hs]
          exact ⟨_, rfl, by simp⟩
        · rw [if_pos ht, if_neg hs] at h
          simp at h
      · rw [if_neg ht]
        exact ⟨_, rfl, by simp⟩
  · rintro fl rfl ht
    simp only [validateImage, if_neg ht]
  · rintro fl rfl ht hs
    simp only [validateImage, if_pos ht, if_pos hs]

/-- C2 witness: a PNG file of exactly 10 MB is accepted. -/
theorem validateImage_spec_witness :
    (validateImage (some ⟨"image/png", 10 * 1024 * 1024⟩)).valid = true :=
  (validateImage_spec (some ⟨"image/png", 10 * 1024 * 1024⟩)).1.mpr
    ⟨⟨"image/png", 10 * 1024 * 1024⟩, rfl, by decide, by decide⟩

/-- C8: `getToxicityColor(x)` is the red class exactly for the string `'P'`
and the green class otherwise; in particular every boolean argument —
including `true` — yields green, so `PredictionResults`, which passes the
boolean `best_prediction.toxicity.is_poisonous`, styles the card border and
the toxicity warning with the edible green color even for a poisonous
prediction. -/
theorem getToxicityColor_spec :
    (∀ v, getToxicityColor v = "text-red-600" ↔ v = .str "P")
    ∧ (∀ b, getToxicityColor (.jsBool b) = "text-green-600")
    ∧ predictionCardBorderColor true = "text-green-600"
    ∧ toxicityWarningColor true = "text-green-600" := by
  refine ⟨fun v => ?_, fun b => rfl, rfl, rfl⟩
  constructor
  · intro h
    by_cases hv : v = .str "P"
    · exact hv
    · rw [getToxicityColor, if_neg hv] at h
      simp at h
  · rintro rfl
    rfl

/-- C8 witness: at the concrete arguments of the claim. -/
theorem getToxicityColor_spec_witness :
    getToxicityColor (.str "P") = "text-red-600"
    ∧ getToxicityColor (.jsBool true) = "text-green-600"
    ∧ predictionCardBorderColor true = "text-green-600" :=
  ⟨(getToxicityColor_spec.1 (.str "P")).mpr rfl, getToxicityColor_spec.2.1 true,
    getToxicityColor_spec.2.2.1⟩

/-- C10: `truncate(text, maxLength)` returns `text` unchanged when it has at
most `maxLength` characters, and otherwise the first `maxLength` characters
followed by `'...'`; the result never exceeds `maxLength + 3` characters. -/
theorem truncate_spec (text : List Char) (maxLength : Nat) :
    (text.length ≤ maxLength → truncate text maxLength = text)
    ∧ (maxLength < text.length →
      truncate text maxLength = text.take maxLength ++ ['.', '.', '.'])
    ∧ (truncate text maxLength).length ≤ maxLength + 3 := by
  refine ⟨fun h => by rw [truncate, if_pos h], fun h => ?_, ?_⟩
  · rw [truncate, if_neg (by omega)]
  · by_cases h : text.length ≤ maxLength
    · rw [truncate, if_pos h]
      omega
    · rw [truncate, if_neg h]
      simp only [List.length_append, List.length_take, List.length_cons,
        List.length_nil]
      omega

/-- C10 witness: a three-character text truncated to two characters. -/
theorem truncate_spec_witness :
    truncate ['a', 'b', 'c'] 2 = ['a', 'b', '.', '.', '.']
    ∧ (truncate ['a', 'b', 'c'] 2).length ≤ 2 + 3 :=
  ⟨by rw [(truncate_spec ['a', 'b', 'c'] 2).2.1 (by decide)]; decide,
    (truncate_spec ['a', 'b', 'c'] 2).2.2⟩

/-- C3: every Grad-CAM request alpha is in [0, 1] — the page state is either
the initial `useState(0.45)` or a slider position of the `min 0, max 1,
step 0.05` range input — the untouched slider submits exactly 0.45, and the
`PredictionResult` card's request passes the constant 0.45. -/
theorem gradcam_alpha_spec :
    (∀ s, 0 ≤ gradcamRequestAlpha s ∧ gradcamRequestAlpha s ≤ 1)
    ∧ gradcamRequestAlpha .start = 45 / 100
    ∧ predictionResultRequestAlpha = 45 / 100 := by
  refine ⟨fun s => ?_, rfl, rfl⟩
  cases s with
  | start =>
    constructor <;> norm_num [gradcamRequestAlpha, alphaValue]
  | slider k =>
    have hk : (k : ℚ) ≤ 20 := by
      have h21 := k.isLt
      have : (k : ℕ) ≤ 20 := Nat.le_of_lt_succ h21
      exact_mod_cast this
    have hk0 : (0 : ℚ) ≤ (k : ℚ) := by positivity
    constructor
    · simp only [gradcamRequestAlpha, alphaValue]
      positivity
    · simp only [gradcamRequestAlpha, alphaValue]
      rw [div_le_one (by norm_num)]
      nlinarith

/-- C9: the `ImageUploader` selection never exceeds `maxFiles` — an
oversized drop is rejected as a whole, an overflowing camera capture is
rejected, removal only shrinks the selection, and within an accepted drop
the invalid files are skipped while the valid ones of the same drop are
added. -/
theorem imageUploader_maxFiles_invariant (maxFiles : Nat)
    (selectedFiles dropped : List JSFile)
    (h : selectedFiles.length ≤ maxFiles) :
    (uploaderHandleFiles maxFiles selectedFiles dropped).length ≤ maxFiles
    ∧ (∀ f, (uploaderHandleCameraCapture maxFiles selectedFiles f).length ≤ maxFiles)
    ∧ (∀ i, (uploaderHandleRemove selectedFiles i).length ≤ selectedFiles.length)
    ∧ (dropped.length + selectedFiles.length > maxFiles →
      uploaderHandleFiles maxFiles selectedFiles dropped = selectedFiles)
    ∧ (dropped.length + selectedFiles.length ≤ maxFiles →
      uploaderHandleFiles maxFiles selectedFiles dropped
        = selectedFiles ++ dropped.filter (fun f => (validateImage (some f)).valid)) := by
  refine ⟨?_, fun f => ?_, fun i => List.length_eraseIdx_le ..,
    fun ho => by rw [uploaderHandleFiles, if_pos ho],
    fun ho => by rw [uploaderHandleFiles, if_neg (by omega)]⟩
  · by_cases ho : dropped.length + selectedFiles.length > maxFiles
    · rw [uploaderHandleFiles, if_pos ho]
      exact h
    · rw [uploaderHandleFiles, if_neg ho]
      have hf := List.length_filter_le (fun f => (validateImage (some f)).valid) dropped
      simp only [List.length_append]
      omega
  · rw [uploaderHandleCameraCapture]
    by_cases hv : (validateImage (some f)).valid = false
    · rw [if_pos hv]
      exact h
    · rw [if_neg hv]
      by_cases hm : selectedFiles.length + 1 > maxFiles
      · rw [if_pos hm]
        exact h
      · rw [if_neg hm]
        simp only [List.length_append, List.length_cons, List.length_nil]
        omega

/-- C9 witness: one selected file plus a drop of a valid and an invalid file
under `maxFiles = 5` stays within the bound. -/
theorem imageUploader_maxFiles_invariant_witness :
    (uploaderHandleFiles 5 [⟨"image/png", 3⟩]
      [⟨"image/png", 4⟩, ⟨"text/html", 1⟩]).length ≤ 5 :=
  (imageUploader_maxFiles_invariant 5 [⟨"image/png", 3⟩]
    [⟨"image/png", 4⟩, ⟨"text/html", 1⟩] (by decide)).1

/-- Length of the indexed batch renderer: one card per result entry. -/
theorem renderBatchFrom_length {α β γ : Type} (previews : List β)
    (files : List γ) : ∀ (rs : List α) (i : Nat),
    (renderBatchFrom previews files i rs).length = rs.length
  | [], _ => rfl
  | _ :: rs, i => by
    simp only [renderBatchFrom, List.length_cons]
    rw [renderBatchFrom_length previews files rs (i + 1)]

/-- Entry `j` of the indexed batch renderer pairs result `j` with preview and
file at the shifted index. -/
theorem renderBatchFrom_get {α β γ : Type} (previews : List β)
    (files : List γ) : ∀ (rs : List α) (i j : Nat),
    (renderBatchFrom previews files i rs).get? j
      = (rs.get? j).map (fun r => (r, previews.get? (i + j), files.get? (i + j)))
  | [], _, _ => by simp [renderBatchFrom]
  | r :: rs, i, 0 => by simp [renderBatchFrom]
  | r :: rs, i, j + 1 => by
    simp only [renderBatchFrom, List.get?_cons_succ]
    rw [renderBatchFrom_get previews files rs (i + 1) j]
    have hidx : i + 1 + j = i + (j + 1) := by omega
    rw [hidx]

/-- C7: `handleBatchPredict` issues no request and reports an error for an
empty selection or one of more than 5 files; a successful response's result
entries are rendered one card per entry in order, the `i`-th paired with the
`i`-th preview and the `i`-th selected file. -/
theorem batchPage_spec {α β : Type} (files : List JSFile) (results : List α)
    (previews : List β) :
    (files.length = 0 →
      handleBatchPredict files = .showError "Vui lòng chọn ít nhất 1 ảnh")
    ∧ (files.length > 5 →
      handleBatchPredict files = .showError "Tối đa 5 ảnh mỗi lần")
    ∧ (1 ≤ files.length → files.length ≤ 5 →
      handleBatchPredict files = .sendRequest files 3)
    ∧ (renderBatch results previews files).length = results.length
    ∧ (∀ i, (renderBatch results previews files).get? i
      = (results.get? i).map (fun r => (r, previews.get? i, files.get? i))) := by
  refine ⟨fun h0 => by rw [handleBatchPredict, if_pos h0],
    fun h5 => by rw [handleBatchPredict, if_neg (by omega), if_pos h5],
    fun h1 h5 => by rw [handleBatchPredict, if_neg (by omega), if_neg (by omega)],
    renderBatchFrom_length previews files results 0, fun i => ?_⟩
  rw [renderBatch, renderBatchFrom_get previews files results 0 i]
  simp only [Nat.zero_add]

/-- C7 witness: a one-file selection issues the request, and one result
yields one rendered card. -/
theorem batchPage_spec_witness :
    handleBatchPredict [⟨"image/png", 1⟩] = .sendRequest [⟨"image/png", 1⟩] 3
    ∧ (renderBatch ["r1"] [10] [(⟨"image/png", 1⟩ : JSFile)]).length = 1 :=
  ⟨(batchPage_spec [⟨"image/png", 1⟩] ["r1"] [(10 : Nat)]).2.2.1 (by decide) (by decide),
    (batchPage_spec [⟨"image/png", 1⟩] ["r1"] [(10 : Nat)]).2.2.2.1⟩

/-- C4: the Grad-CAM grid skips exactly the per-model entries that are
absent, unsuccessful, or lack an overlay (the map callback returns `null`
for those and only those), while every model whose entry has `success` and
an overlay is rendered with its overlay, predicted class and confidence —
one backbone's failure never suppresses another's card. -/
theorem gradcam_partial_render (entries : List (String × Option GradEntry))
    (n : String) (e : GradEntry) (b64 : String)
    (hmem : (n, some e) ∈ entries) (hs : e.success = true)
    (hb : e.gradcam_base64 = some b64) :
    (⟨n, b64, e.predicted_class.getD "N/A", e.confidence.getD 0⟩ : GradCard)
      ∈ renderGradResults entries
    ∧ (∀ m d, renderGradEntry m d = none ↔
      d = none ∨ ∃ g, d = some g ∧ (g.success = false ∨ g.gradcam_base64 = none)) := by
  constructor
  · apply List.mem_filterMap.mpr
    refine ⟨(n, some e), hmem, ?_⟩
    simp [renderGradEntry, hs, hb]
  · intro m d
    cases d with
    | none => simp [renderGradEntry]
    | some g =>
      simp only [renderGradEntry]
      by_cases hg : g.success = true
      · cases hgb : g.gradcam_base64 with
        | none => simp [hg, hgb]
        | some x => simp [hg, hgb]
      · rw [if_neg hg]
        simp only [Bool.not_eq_true] at hg
        simp [hg]

/-- C4 witness: with one failed backbone entry and one successful one, the
successful backbone's card is rendered. -/
theorem gradcam_partial_render_witness :
    (⟨"efficientnet_b0", "IMG", "Amanita", (90 : ℚ)⟩ : GradCard)
      ∈ renderGradResults
        [("resnet50", some ⟨false, none, none, none⟩),
          ("efficientnet_b0", some ⟨true, some "IMG", some "Amanita", some 90⟩)] :=
  (gradcam_partial_render
    [("resnet50", some ⟨false, none, none, none⟩),
      ("efficientnet_b0", some ⟨true, some "IMG", some "Amanita", some 90⟩)]
    "efficientnet_b0" ⟨true, some "IMG", some "Amanita", some 90⟩ "IMG"
    (List.Mem.tail _ (List.Mem.head _)) rfl rfl).1

/-- `fuse` fails exactly on an empty prediction list. -/
theorem fuse_eq_none_iff (preds : List ModelPred) :
    fuse preds = none ↔ preds = [] := by
  rw [fuse]
  by_cases hp : preds.isEmpty
  · rw [if_pos hp]
    exact ⟨fun _ => List.isEmpty_iff.mp hp, fun _ => rfl⟩
  · rw [if_neg hp]
    refine ⟨fun h => Option.noConfusion h, fun hnil => ?_⟩
    exact absurd (show preds.isEmpty = true by rw [hnil]; rfl) hp

/-- C5: when every backbone's inference failed the request fails with
`NoValidPredictionsError`, and a returned result never has an empty
per-backbone breakdown. -/
theorem runPredictRequest_spec (outcomes : List (String × Option ModelPred))
    (res : EnsembleResult) :
    ((∀ o ∈ outcomes, o.2 = none) →
      runPredictRequest outcomes = .error "NoValidPredictionsError")
    ∧ (runPredictRequest outcomes = .ok res → res.breakdown ≠ []) := by
  constructor
  · intro hall
    have hsucc : successes outcomes = [] := by
      rw [successes, List.filterMap_eq_nil_iff]
      intro o ho
      rw [hall o ho]
      rfl
    rw [runPredictRequest, hsucc]
    rfl
  · intro hok
    rw [runPredictRequest] at hok
    rcases hfuse : fuse ((successes outcomes).map Prod.snd) with _ | ranked
    · rw [hfuse] at hok
      exact Except.noConfusion hok
    · rw [hfuse] at hok
      obtain rfl : res = ⟨successes outcomes, ranked⟩ := by
        injection hok with h
        exact h.symm
      intro hnil
      have : (successes outcomes).map Prod.snd = [] := by
        simp only [EnsembleResult.breakdown] at hnil
        rw [hnil]
        rfl
      rw [(fuse_eq_none_iff _).mpr this] at hfuse
      exact Option.noConfusion hfuse

/-- C5 witness: two failed backbones yield the fatal error, and a concrete
successful run has a non-empty breakdown. -/
theorem runPredictRequest_spec_witness :
    runPredictRequest [("resnet50", none), ("efficientnet_b0", none)]
      = .error "NoValidPredictionsError" :=
  (runPredictRequest_spec [("resnet50", none), ("efficientnet_b0", none)]
    ⟨[], []⟩).1 (by simp)

/-- C6: preprocessing is deterministic and side-effect free — for bytes that
decode, two `prepare` calls in different request contexts return the same
tensor (the context only receives the scratch allocation; the output is a
function of the bytes alone). -/
theorem prepare_deterministic (bytes : List Nat) (ctx1 ctx2 : RequestCtx)
    (h : (decode bytes).isSome = true) :
    ∃ t, (prepareCall bytes ctx1).1 = some t
      ∧ (prepareCall bytes ctx2).1 = some t := by
  obtain ⟨img, himg⟩ := Option.isSome_iff_exists.mp h
  exact ⟨(normalizeFlat (resizeFlat img), img.width, img.height),
    by simp [prepareCall, prepareTensor, himg],
    by simp [prepareCall, prepareTensor, himg]⟩

/-- C6 witness: a concrete decodable byte string prepared in two different
contexts gives bit-identical tensors. -/
theorem prepare_deterministic_witness :
    (prepareCall [0, 1, 1, 7, 8, 9] ⟨0⟩).1 = (prepareCall [0, 1, 1, 7, 8, 9] ⟨7⟩).1 := by
  obtain ⟨t, h1, h2⟩ :=
    prepare_deterministic [0, 1, 1, 7, 8, 9] ⟨0⟩ ⟨7⟩ (by decide)
  rw [h1, h2]

/-- C1: a successful fuse returns a ranked list sorted descending by
confidence with ties broken by ascending lexical label order, containing no
duplicate class labels, and with every adjacent pair (in particular the
first two entries) in descending confidence order. -/
theorem fuse_ranked_spec (preds : List ModelPred) (ranked : List ClassProb)
    (h : fuse preds = some ranked) :
    ranked.Pairwise (fun a b => b.2 < a.2 ∨ (a.2 = b.2 ∧ a.1 < b.1))
    ∧ (ranked.map Prod.fst).Nodup
    ∧ ranked.Chain' (fun a b => b.2 ≤ a.2) := by
  rw [fuse] at h
  by_cases hp : preds.isEmpty
  · rw [if_pos hp] at h
    exact Option.noConfusion h
  · rw [if_neg hp] at h
    obtain rfl : ranked
        = ((fusedLabels preds).map (fun l => (l, meanConf l preds))).insertionSort rankRel := by
      injection h with h2
      exact h2.symm
    have hsorted :
        List.Sorted rankRel
          (((fusedLabels preds).map (fun l => (l, meanConf l preds))).insertionSort rankRel) :=
      List.sorted_insertionSort rankRel _
    have hperm :
        (((fusedLabels preds).map (fun l => (l, meanConf l preds))).insertionSort rankRel).Perm
          ((fusedLabels preds).map (fun l => (l, meanConf l preds))) :=
      List.perm_insertionSort rankRel _
    have hnodupLab :
        (((fusedLabels preds).map (fun l => (l, meanConf l preds))).map Prod.fst).Nodup := by
      rw [List.map_map]
      have hid : (Prod.fst ∘ fun l => (l, meanConf l preds)) = fun l => l := rfl
      rw [hid, List.map_id']
      exact List.nodup_dedup _
    have hnodup :
        ((((fusedLabels preds).map (fun l => (l, meanConf l preds))).insertionSort
          rankRel).map Prod.fst).Nodup :=
      ((hperm.map Prod.fst).nodup_iff).mpr hnodupLab
    have hpairNe :
        (((fusedLabels preds).map (fun l => (l, meanConf l preds))).insertionSort
          rankRel).Pairwise (fun a b => a.1 ≠ b.1) := by
      have h2 := hnodup
      rwa [List.Nodup, List.pairwise_map] at h2
    have hpair := hsorted.and hpairNe
    refine ⟨hpair.imp ?_, hnodup, ?_⟩
    · rintro a b ⟨hr, hne⟩
      rcases hr with hlt | ⟨heq, hle⟩
      · exact Or.inl hlt
      · exact Or.inr ⟨heq, lt_of_le_of_ne hle hne⟩
    · haveI : IsTrans ClassProb (fun a b => b.2 ≤ a.2) :=
        ⟨fun _ _ _ hab hbc => le_trans hbc hab⟩
      apply List.chain'_iff_pairwise.mpr
      refine hsorted.imp ?_
      rintro a b hr
      rcases hr with hlt | ⟨heq, _⟩
      · exact le_of_lt hlt
      · exact le_of_eq heq.symm

/-- Evaluation of `fuse` on one backbone reporting two classes. -/
theorem fuse_single_model_eval :
    fuse [[("A", 70), ("B", 30)]] = some [("A", 70), ("B", 30)] := by
  have hA : meanConf "A" [[("A", (70 : ℚ)), ("B", 30)]] = 70 := by
    simp [meanConf, classVals, List.find?, List.filterMap]
  have hB : meanConf "B" [[("A", (70 : ℚ)), ("B", 30)]] = 30 := by
    simp [meanConf, classVals, List.find?, List.filterMap]
  have hlab : fusedLabels [[("A", (70 : ℚ)), ("B", 30)]] = ["A", "B"] := by decide
  rw [fuse, if_neg (by decide), hlab]
  simp only [List.map_cons, List.map_nil, hA, hB]
  simp only [List.insertionSort, List.orderedInsert]
  have hr : rankRel ("A", (70 : ℚ)) ("B", 30) := Or.inl (by norm_num)
  rw [if_pos hr]

/-- C1 witness: the fused ranking of a concrete one-model input is pairwise
descending with distinct labels and adjacentwise descending. -/
theorem fuse_ranked_spec_witness :
    ([("A", (70 : ℚ)), ("B", 30)] : List ClassProb).Pairwise
      (fun a b => b.2 < a.2 ∨ (a.2 = b.2 ∧ a.1 < b.1))
    ∧ (([("A", (70 : ℚ)), ("B", 30)] : List ClassProb).map Prod.fst).Nodup
    ∧ ([("A", (70 : ℚ)), ("B", 30)] : List ClassProb).Chain'
      (fun a b => b.2 ≤ a.2) :=
  fuse_ranked_spec [[("A", 70), ("B", 30)]] [("A", 70), ("B", 30)]
    fuse_single_model_eval
